import Mathlib

/-!
Shallow embedding of the GeniusTestBoost school-management backend
(Express routes over a Supabase table store). Records mirror the table
rows the routes read and write; each route becomes a function from a
store, a session user and a request body to a response and a new store.
Timestamps are modelled as natural numbers, generated row ids by a
counter carried in the store.
-/

/-- A row of the users table. -/
structure User where
  id : Nat
  first_name : String
  last_name : String
  email : String
  password : String
  role : String
  is_approved : Bool
  created_at : Nat
deriving DecidableEq, Repr

/-- A row of the courses table. -/
structure Course where
  id : Nat
  teacher_id : Nat
  name : String
  description : String
  subject : String
  is_active : Bool
  created_at : Nat
  updated_at : Nat
deriving DecidableEq, Repr

/-- A row of the enrollments table; the store enforces uniqueness of the
(student_id, course_id) pair. -/
structure Enrollment where
  id : Nat
  student_id : Nat
  course_id : Nat
  enrolled_at : Nat
deriving DecidableEq, Repr

/-- A row of the assignments table. -/
structure Assignment where
  id : Nat
  course_id : Nat
  title : String
  description : String
  due_date : Option Nat
  max_points : Nat
deriving DecidableEq, Repr

/-- A row of the submissions table. -/
structure Submission where
  id : Nat
  assignment_id : Nat
  student_id : Nat
  content : String
  submitted_at : Nat
  grade : Option Int
  feedback : String
  graded_at : Option Nat
deriving DecidableEq, Repr

/-- A row of the messages table. -/
structure Message where
  id : Nat
  sender_id : Nat
  receiver_id : Nat
  content : String
  created_at : Nat
  is_read : Bool
deriving DecidableEq, Repr

/-- The whole table store; nextId models the id sequence used by inserts. -/
structure Store where
  users : List User
  courses : List Course
  enrollments : List Enrollment
  assignments : List Assignment
  submissions : List Submission
  messages : List Message
  nextId : Nat
deriving DecidableEq, Repr

/-- The session identity snapshot req.session.user carries. -/
structure SessionUser where
  id : Nat
  role : String
  isApproved : Bool
deriving DecidableEq, Repr

/-- Outcome of a route: a JSON payload with status 200, or an error
status plus error message. -/
inductive RouteResult (α : Type) where
  | ok : α → RouteResult α
  | err : Nat → String → RouteResult α
deriving DecidableEq, Repr

/-- JS falsiness of an optional string request field: absent or empty. -/
def strFalsy : Option String → Bool
  | some s => s == ""
  | none => true

/-- JS falsiness of an optional numeric request field: absent or zero. -/
def natFalsy : Option Nat → Bool
  | some n => n == 0
  | none => true

/-- requireRole middleware: 403 unless the session role is allowed. -/
def requireRoleCheck (roles : List String) (u : SessionUser) : Option (Nat × String) :=
  if roles.contains u.role then none
  else some (403, "Insufficient permissions")

/-- requireApproved middleware: students and master teachers pass; a
teacher is re-read from the users table and rejected when missing or
unapproved. -/
def requireApprovedCheck (s : Store) (u : SessionUser) : Option (Nat × String) :=
  if u.role == "student" || u.role == "master_teacher" then none
  else
    match s.users.find? (fun x => x.id == u.id) with
    | some usr =>
        if usr.is_approved then none
        else some (403, "Your account is pending admin approval")
    | none => some (403, "Your account is pending admin approval")

/-- verifyTeacherOwns helper: the course exists and its teacher_id is the
given user id. -/
def verifyTeacherOwns (s : Store) (courseId userId : Nat) : Bool :=
  match s.courses.find? (fun c => c.id == courseId) with
  | some c => c.teacher_id == userId
  | none => false

/-- verifyEnrolled helper: an enrollment row for the pair exists. -/
def verifyEnrolled (s : Store) (courseId studentId : Nat) : Bool :=
  (s.enrollments.find? (fun e => e.course_id == courseId && e.student_id == studentId)).isSome

/-- Body of POST /api/courses. -/
structure CreateCourseBody where
  name : Option String
  description : Option String
  subject : Option String
deriving DecidableEq, Repr

/-- POST /api/courses: role gate, approval gate, name required, insert. -/
def createCourse (s : Store) (u : SessionUser) (b : CreateCourseBody) (now : Nat) :
    RouteResult Course × Store :=
  match requireRoleCheck ["teacher", "master_teacher"] u with
  | some (st, msg) => (.err st msg, s)
  | none =>
  match requireApprovedCheck s u with
  | some (st, msg) => (.err st msg, s)
  | none =>
    if strFalsy b.name then (.err 400 "Course name is required", s)
    else
      let c : Course :=
        { id := s.nextId, teacher_id := u.id, name := b.name.getD "",
          description := b.description.getD "", subject := b.subject.getD "",
          is_active := true, created_at := now, updated_at := now }
      (.ok c, { s with courses := s.courses ++ [c], nextId := s.nextId + 1 })

/-- Body of PUT /api/courses/:id; none models an absent field. -/
structure UpdateCourseBody where
  name : Option String
  description : Option String
  subject : Option String
  is_active : Option Bool
deriving DecidableEq, Repr

/-- The update object PUT /api/courses/:id builds: updated_at always,
plus each body field that is not undefined. -/
def applyCourseUpdates (c : Course) (b : UpdateCourseBody) (now : Nat) : Course :=
  { c with
    updated_at := now,
    name := b.name.getD c.name,
    description := b.description.getD c.description,
    subject := b.subject.getD c.subject,
    is_active := b.is_active.getD c.is_active }

/-- PUT /api/courses/:id: role gate; a teacher must own the course; the
update is applied to the matching row and the updated row returned (a
missing row makes the final single-row select fail with 500). -/
def updateCourse (s : Store) (u : SessionUser) (cid : Nat) (b : UpdateCourseBody) (now : Nat) :
    RouteResult Course × Store :=
  match requireRoleCheck ["teacher", "master_teacher"] u with
  | some (st, msg) => (.err st msg, s)
  | none =>
    if u.role == "teacher" && !(verifyTeacherOwns s cid u.id) then
      (.err 403 "Not your course", s)
    else
      let s2 : Store :=
        { s with courses := s.courses.map (fun c =>
            if c.id == cid then applyCourseUpdates c b now else c) }
      match s.courses.find? (fun c => c.id == cid) with
      | none => (.err 500 "Failed to update course", s2)
      | some c => (.ok (applyCourseUpdates c b now), s2)

/-- DELETE /api/courses/:id: role gate; a teacher must own the course;
soft delete sets is_active false and updated_at on the matching row. -/
def deleteCourse (s : Store) (u : SessionUser) (cid : Nat) (now : Nat) :
    RouteResult Unit × Store :=
  match requireRoleCheck ["teacher", "master_teacher"] u with
  | some (st, msg) => (.err st msg, s)
  | none =>
    if u.role == "teacher" && !(verifyTeacherOwns s cid u.id) then
      (.err 403 "Not your course", s)
    else
      (.ok (), { s with courses := s.courses.map (fun c =>
          if c.id == cid then { c with is_active := false, updated_at := now } else c) })

/-- POST /api/courses/:id/enroll: student role gate; the insert hits the
store uniqueness constraint on (student_id, course_id), whose violation
the route maps to a 400 domain error. -/
def enroll (s : Store) (u : SessionUser) (cid : Nat) (now : Nat) :
    RouteResult Enrollment × Store :=
  match requireRoleCheck ["student"] u with
  | some (st, msg) => (.err st msg, s)
  | none =>
    if s.enrollments.any (fun e => e.student_id == u.id && e.course_id == cid) then
      (.err 400 "Already enrolled in this course", s)
    else
      let e : Enrollment :=
        { id := s.nextId, student_id := u.id, course_id := cid, enrolled_at := now }
      (.ok e, { s with enrollments := s.enrollments ++ [e], nextId := s.nextId + 1 })

/-- DELETE /api/courses/:id/unenroll: student role gate; deletes the
matching enrollment rows and nothing else. -/
def unenroll (s : Store) (u : SessionUser) (cid : Nat) : RouteResult Unit × Store :=
  match requireRoleCheck ["student"] u with
  | some (st, msg) => (.err st msg, s)
  | none =>
    (.ok (), { s with enrollments := s.enrollments.filter (fun e =>
        !(e.student_id == u.id && e.course_id == cid)) })

/-- Number of enrollment rows of a course, as the routes count it. -/
def enrollmentCount (s : Store) (cid : Nat) : Nat :=
  (s.enrollments.filter (fun e => e.course_id == cid)).length

/-- Body of POST /api/assignments. -/
structure CreateAssignmentBody where
  course_id : Option Nat
  title : Option String
  description : Option String
  due_date : Option Nat
  max_points : Option Nat
deriving DecidableEq, Repr

/-- POST /api/assignments: role gate, approval gate, course and title
required, teacher-ownership check, insert with defaults. -/
def createAssignment (s : Store) (u : SessionUser) (b : CreateAssignmentBody) :
    RouteResult Assignment × Store :=
  match requireRoleCheck ["teacher", "master_teacher"] u with
  | some (st, msg) => (.err st msg, s)
  | none =>
  match requireApprovedCheck s u with
  | some (st, msg) => (.err st msg, s)
  | none =>
    if natFalsy b.course_id || strFalsy b.title then
      (.err 400 "Course and title are required", s)
    else
      let cid := b.course_id.getD 0
      if u.role == "teacher" && !(verifyTeacherOwns s cid u.id) then
        (.err 403 "Not your course", s)
      else
        let a : Assignment :=
          { id := s.nextId, course_id := cid, title := b.title.getD "",
            description := b.description.getD "",
            due_date := if natFalsy b.due_date then none else b.due_date,
            max_points := if natFalsy b.max_points then 100 else b.max_points.getD 100 }
        (.ok a, { s with assignments := s.assignments ++ [a], nextId := s.nextId + 1 })

/-- Body of PUT /api/assignments/:id; the outer Option models presence
of the field in the request, the inner Option of due_date models an
explicit null, which the route treats as a present value. -/
structure UpdateAssignmentBody where
  title : Option String
  description : Option String
  due_date : Option (Option Nat)
  max_points : Option Nat
deriving DecidableEq, Repr

/-- The update object PUT /api/assignments/:id builds: exactly the body
fields that are not undefined. -/
def applyAssignmentUpdates (a : Assignment) (b : UpdateAssignmentBody) : Assignment :=
  { a with
    title := b.title.getD a.title,
    description := b.description.getD a.description,
    due_date := b.due_date.getD a.due_date,
    max_points := b.max_points.getD a.max_points }

/-- PUT /api/assignments/:id: role gate; 404 when the assignment is
missing; a teacher must own the parent course; the update is applied to
the matching row and the updated row returned. -/
def updateAssignment (s : Store) (u : SessionUser) (aid : Nat) (b : UpdateAssignmentBody) :
    RouteResult Assignment × Store :=
  match requireRoleCheck ["teacher", "master_teacher"] u with
  | some (st, msg) => (.err st msg, s)
  | none =>
    match s.assignments.find? (fun a => a.id == aid) with
    | none => (.err 404 "Assignment not found", s)
    | some a =>
      if u.role == "teacher" && !(verifyTeacherOwns s a.course_id u.id) then
        (.err 403 "Not your course", s)
      else
        (.ok (applyAssignmentUpdates a b),
         { s with assignments := s.assignments.map (fun x =>
             if x.id == aid then applyAssignmentUpdates x b else x) })

/-- DELETE /api/assignments/:id: role gate; 404 when missing; a teacher
must own the parent course; deletes the matching rows. -/
def deleteAssignment (s : Store) (u : SessionUser) (aid : Nat) : RouteResult Unit × Store :=
  match requireRoleCheck ["teacher", "master_teacher"] u with
  | some (st, msg) => (.err st msg, s)
  | none =>
    match s.assignments.find? (fun a => a.id == aid) with
    | none => (.err 404 "Assignment not found", s)
    | some a =>
      if u.role == "teacher" && !(verifyTeacherOwns s a.course_id u.id) then
        (.err 403 "Not your course", s)
      else
        (.ok (), { s with assignments := s.assignments.filter (fun x => !(x.id == aid)) })

/-- POST /api/assignments/:id/submit: student role gate; content
required; 404 when the assignment is missing; enrollment gate; then an
existence check on the (assignment, student) pair decides between an
in-place update of content and submitted_at and an insert of a fresh
row with store defaults for the remaining columns. -/
def submit (s : Store) (u : SessionUser) (aid : Nat) (content : Option String) (now : Nat) :
    RouteResult Submission × Store :=
  match requireRoleCheck ["student"] u with
  | some (st, msg) => (.err st msg, s)
  | none =>
    if strFalsy content then (.err 400 "Submission content is required", s)
    else
      match s.assignments.find? (fun a => a.id == aid) with
      | none => (.err 404 "Assignment not found", s)
      | some a =>
        if !(verifyEnrolled s a.course_id u.id) then
          (.err 403 "Not enrolled in this course", s)
        else
          match s.submissions.find? (fun x => x.assignment_id == aid && x.student_id == u.id) with
          | some ex =>
            let upd := fun (x : Submission) =>
              { x with content := content.getD "", submitted_at := now }
            (.ok (upd ex), { s with submissions := s.submissions.map (fun x =>
                if x.id == ex.id then upd x else x) })
          | none =>
            let sub : Submission :=
              { id := s.nextId, assignment_id := aid, student_id := u.id,
                content := content.getD "", submitted_at := now,
                grade := none, feedback := "", graded_at := none }
            (.ok sub, { s with submissions := s.submissions ++ [sub], nextId := s.nextId + 1 })

/-- The observable response of POST /auth/login. -/
structure LoginResp where
  status : Nat
  errMsg : Option String
  success : Bool
deriving DecidableEq, Repr

/-- POST /auth/login: both fields required; user looked up by email; the
hash comparison is the external bcrypt compare, passed as a parameter;
a missing user and a failed comparison produce the same response. -/
def login (s : Store) (compare : String → String → Bool) (email password : Option String) :
    LoginResp :=
  if strFalsy email || strFalsy password then
    { status := 400, errMsg := some "Email and password are required", success := false }
  else
    match s.users.find? (fun x => x.email == email.getD "") with
    | none => { status := 401, errMsg := some "Invalid email or password", success := false }
    | some usr =>
      if compare (password.getD "") usr.password then
        { status := 200, errMsg := none, success := true }
      else
        { status := 401, errMsg := some "Invalid email or password", success := false }

/-- The read-marking update of GET /api/messages/conversation/:userId:
every unread message from the partner to the caller gets is_read true. -/
def markConversationRead (msgs : List Message) (callerId partnerId : Nat) : List Message :=
  msgs.map (fun m =>
    if m.sender_id == partnerId && m.receiver_id == callerId && m.is_read == false then
      { m with is_read := true }
    else m)

/-- GET /api/messages/conversation/:userId: returns the chronological
history between the two users and marks received messages as read. -/
def conversationWith (s : Store) (u : SessionUser) (partnerId : Nat) :
    RouteResult (List Message) × Store :=
  let msgs := List.insertionSort (fun a b => a.created_at ≤ b.created_at)
      (s.messages.filter (fun m =>
        (m.sender_id == u.id && m.receiver_id == partnerId) ||
        (m.sender_id == partnerId && m.receiver_id == u.id)))
  (.ok msgs, { s with messages := markConversationRead s.messages u.id partnerId })

/-- GET /api/messages/unread-count: messages addressed to the caller
with is_read false. -/
def unreadCount (s : Store) (uid : Nat) : Nat :=
  (s.messages.filter (fun m => m.receiver_id == uid && m.is_read == false)).length

/-- The slim assignment record pending-grading selects: id, title,
course_id. -/
structure AssignmentBrief where
  id : Nat
  title : String
  course_id : Nat
deriving DecidableEq, Repr

/-- One enriched entry of the pending-grading response. -/
structure PendingItem where
  submission : Submission
  student : Option (String × String)
  assignment : Option AssignmentBrief
  course_name : String
deriving DecidableEq, Repr

/-- Lookup in a JS object built by writing each list element under its
key in order: the last write wins. -/
def jsLookupBrief (l : List AssignmentBrief) (k : Nat) : Option AssignmentBrief :=
  l.reverse.find? (fun a => a.id == k)

/-- Lookup of a course name in the courseMap object, last write wins. -/
def jsLookupCourseName (l : List Course) (k : Nat) : Option String :=
  (l.reverse.find? (fun c => c.id == k)).map (fun c => c.name)

/-- GET /api/assignments/pending-grading: role gate; courses filtered by
teacher_id equal to the caller id; their assignments; the ungraded
submissions of those assignments ordered by submitted_at ascending; each
entry enriched with student name, slim assignment and course name. -/
def pendingGrading (s : Store) (u : SessionUser) : RouteResult (List PendingItem) :=
  match requireRoleCheck ["teacher", "master_teacher"] u with
  | some (st, msg) => .err st msg
  | none =>
    let courses := s.courses.filter (fun c => c.teacher_id == u.id)
    if courses.isEmpty then .ok []
    else
      let courseIds := courses.map (fun c => c.id)
      let briefs := (s.assignments.filter (fun a => courseIds.contains a.course_id)).map
        (fun a => ({ id := a.id, title := a.title, course_id := a.course_id } : AssignmentBrief))
      if briefs.isEmpty then .ok []
      else
        let assignmentIds := briefs.map (fun a => a.id)
        let subs := List.insertionSort (fun a b => a.submitted_at ≤ b.submitted_at)
          (s.submissions.filter (fun x =>
            assignmentIds.contains x.assignment_id && x.grade == none))
        .ok (subs.map (fun sub =>
          let ab := jsLookupBrief briefs sub.assignment_id
          { submission := sub,
            student := (s.users.find? (fun x => x.id == sub.student_id)).map
              (fun x => (x.first_name, x.last_name)),
            assignment := ab,
            course_name :=
              match ab with
              | some a => (jsLookupCourseName courses a.course_id).getD ""
              | none => "" }))

/-- Body of PUT /api/admin/users/:id. -/
structure AdminEditBody where
  first_name : Option String
  last_name : Option String
  email : Option String
  role : Option String
deriving DecidableEq, Repr

/-- JS truthiness of an optional string body field, as the admin edit
route tests it: present and not the empty string. -/
def truthy (o : Option String) : Bool :=
  match o with
  | some s => !(s == "")
  | none => false

/-- The update object PUT /api/admin/users/:id builds: exactly the
truthy body fields. -/
def applyUserEdit (x : User) (b : AdminEditBody) : User :=
  { x with
    first_name := if truthy b.first_name then b.first_name.getD "" else x.first_name,
    last_name := if truthy b.last_name then b.last_name.getD "" else x.last_name,
    email := if truthy b.email then b.email.getD "" else x.email,
    role := if truthy b.role then b.role.getD "" else x.role }

/-- PUT /api/admin/users/:id: admin role gate; an admin cannot change
their own role away from master_teacher; the truthy body fields are
applied to the matching row and the updated row returned. -/
def adminEditUser (s : Store) (u : SessionUser) (targetId : Nat) (b : AdminEditBody) :
    RouteResult User × Store :=
  match requireRoleCheck ["master_teacher"] u with
  | some (st, msg) => (.err st msg, s)
  | none =>
    if targetId == u.id && truthy b.role && !(b.role.getD "" == "master_teacher") then
      (.err 400 "Cannot change your own admin role", s)
    else
      let s2 : Store :=
        { s with users := s.users.map (fun x =>
            if x.id == targetId then applyUserEdit x b else x) }
      match s.users.find? (fun x => x.id == targetId) with
      | none => (.err 500 "Failed to update user", s2)
      | some x => (.ok (applyUserEdit x b), s2)

/-- The spec invariant a submission is meant to satisfy: its assignment
exists and its student is enrolled in that course. -/
def submissionStudentEnrolled (s : Store) (sub : Submission) : Prop :=
  ∃ a ∈ s.assignments, a.id = sub.assignment_id ∧
    ∃ e ∈ s.enrollments, e.course_id = a.course_id ∧ e.student_id = sub.student_id

instance (s : Store) (sub : Submission) : Decidable (submissionStudentEnrolled s sub) := by
  unfold submissionStudentEnrolled; infer_instance

/-- A submission is ungraded and its assignment belongs to a course the
given teacher owns. -/
def ownsPendingSub (s : Store) (uid : Nat) (sub : Submission) : Prop :=
  sub.grade = none ∧ ∃ a ∈ s.assignments, a.id = sub.assignment_id ∧
    ∃ c ∈ s.courses, c.id = a.course_id ∧ c.teacher_id = uid

instance (s : Store) (uid : Nat) (sub : Submission) : Decidable (ownsPendingSub s uid sub) := by
  unfold ownsPendingSub; infer_instance

/-- A teacher whose stored approval flag is false. -/
def t1 : User :=
  { id := 1, first_name := "Ann", last_name := "Lee", email := "ann@x", password := "h1",
    role := "teacher", is_approved := false, created_at := 0 }

/-- A student user. -/
def st2 : User :=
  { id := 2, first_name := "Bo", last_name := "Kim", email := "bo@x", password := "h2",
    role := "student", is_approved := true, created_at := 0 }

/-- A course owned by teacher 1. -/
def course1 : Course :=
  { id := 1, teacher_id := 1, name := "Algebra", description := "", subject := "",
    is_active := true, created_at := 0, updated_at := 0 }

/-- Student 2 enrolled in course 1. -/
def enr1 : Enrollment := { id := 1, student_id := 2, course_id := 1, enrolled_at := 0 }

/-- An assignment of course 1. -/
def asg1 : Assignment :=
  { id := 1, course_id := 1, title := "HW1", description := "", due_date := none,
    max_points := 100 }

/-- A submission of student 2 for assignment 1. -/
def sub1 : Submission :=
  { id := 1, assignment_id := 1, student_id := 2, content := "ans", submitted_at := 3,
    grade := none, feedback := "", graded_at := none }

/-- Store with an unapproved teacher who owns a course. -/
def storeUnapproved : Store :=
  { users := [t1], courses := [course1], enrollments := [], assignments := [],
    submissions := [], messages := [], nextId := 2 }

/-- Store where student 2 is enrolled in course 1 and has submitted. -/
def storeWithSub : Store :=
  { users := [t1, st2], courses := [course1], enrollments := [enr1], assignments := [asg1],
    submissions := [sub1], messages := [], nextId := 5 }

/-- Store where student 2 is enrolled in course 1 with no submissions yet. -/
def storeNoSub : Store :=
  { users := [t1, st2], courses := [course1], enrollments := [enr1], assignments := [asg1],
    submissions := [], messages := [], nextId := 5 }

/-- Session of the (unapproved) teacher 1. -/
def teacherSession : SessionUser := { id := 1, role := "teacher", isApproved := false }

/-- Session of student 2. -/
def studentSession : SessionUser := { id := 2, role := "student", isApproved := true }

/-- Session of an admin with id 3. -/
def adminSession : SessionUser := { id := 3, role := "master_teacher", isApproved := true }

/-- A concrete assignment update body: new title, absent description,
explicit null due date, absent max points. -/
def updBody1 : UpdateAssignmentBody :=
  { title := some "HW1b", description := none, due_date := some none, max_points := none }

/-- Assignment 1 after applying updBody1. -/
def asg1b : Assignment := { asg1 with title := "HW1b" }

/-- storeWithSub after the assignment update of updBody1. -/
def storeAsgUpd : Store := { storeWithSub with assignments := [asg1b] }

/-- C4: a login with a known email but failing password comparison and a
login with an unknown email produce identical responses, a 401 with the
message Invalid email or password, so the response does not reveal
whether the email exists. -/
theorem login_no_existence_oracle (s : Store) (compare : String → String → Bool)
    (e1 p1 e2 p2 : String) (usr : User)
    (he1 : e1 ≠ "") (hp1 : p1 ≠ "") (he2 : e2 ≠ "") (hp2 : p2 ≠ "")
    (hfound : s.users.find? (fun x => x.email == e1) = some usr)
    (hwrong : compare p1 usr.password = false)
    (hunknown : s.users.find? (fun x => x.email == e2) = none) :
    login s compare (some e1) (some p1) = login s compare (some e2) (some p2) ∧
    login s compare (some e1) (some p1) =
      { status := 401, errMsg := some "Invalid email or password", success := false } := by
  unfold login
  simp only [strFalsy, Option.getD_some, beq_iff_eq, he1, hp1, he2, hp2,
    if_false, Bool.or_self, decide_eq_true_eq]
  simp [he1, hp1, he2, hp2, hfound, hunknown, hwrong]

/-- C4 witness: concrete store where the two failing logins coincide. -/
theorem login_no_existence_oracle_witness :
    login storeWithSub (fun _ _ => false) (some "ann@x") (some "pw") =
      login storeWithSub (fun _ _ => false) (some "zz@x") (some "pw") ∧
    login storeWithSub (fun _ _ => false) (some "ann@x") (some "pw") =
      { status := 401, errMsg := some "Invalid email or password", success := false } :=
  login_no_existence_oracle storeWithSub (fun _ _ => false) "ann@x" "pw" "zz@x" "pw" t1
    (by decide) (by decide) (by decide) (by decide) (by decide) rfl (by decide)

/-- C7: a second enroll for an already enrolled (student, course) pair is
rejected with a 400 domain message and the enrollment count of the
course does not increase. -/
theorem enroll_duplicate_rejected (s : Store) (u : SessionUser) (cid now : Nat)
    (hrole : u.role = "student")
    (halready : ∃ e ∈ s.enrollments, e.student_id = u.id ∧ e.course_id = cid) :
    enroll s u cid now = (.err 400 "Already enrolled in this course", s) ∧
    enrollmentCount (enroll s u cid now).2 cid = enrollmentCount s cid := by
  have hany : s.enrollments.any (fun e => e.student_id == u.id && e.course_id == cid) = true := by
    rcases halready with ⟨e, he, h1, h2⟩
    exact List.any_eq_true.2 ⟨e, he, by simp [h1, h2]⟩
  have hmain : enroll s u cid now = (.err 400 "Already enrolled in this course", s) := by
    unfold enroll requireRoleCheck
    simp [hrole, hany]
  exact ⟨hmain, by rw [hmain]⟩

/-- C7 witness: student 2 is enrolled in course 1 and the second enroll
is rejected without changing the count. -/
theorem enroll_duplicate_rejected_witness :
    enroll storeWithSub studentSession 1 9 =
      (.err 400 "Already enrolled in this course", storeWithSub) ∧
    enrollmentCount (enroll storeWithSub studentSession 1 9).2 1 =
      enrollmentCount storeWithSub 1 :=
  enroll_duplicate_rejected storeWithSub studentSession 1 9 rfl
    ⟨enr1, by decide, by decide, by decide⟩

/-- C5: a course update or delete by a teacher who does not own the
course is rejected with 403 and the store is unchanged, while a
master_teacher caller never hits the ownership 403. -/
theorem course_mutation_ownership (s : Store) (u : SessionUser) (cid : Nat)
    (b : UpdateCourseBody) (now : Nat) :
    (u.role = "teacher" → (∀ c ∈ s.courses, c.id = cid → c.teacher_id ≠ u.id) →
      updateCourse s u cid b now = (.err 403 "Not your course", s) ∧
      deleteCourse s u cid now = (.err 403 "Not your course", s)) ∧
    (u.role = "master_teacher" →
      (∀ m, (updateCourse s u cid b now).1 ≠ .err 403 m) ∧
      (∀ m, (deleteCourse s u cid now).1 ≠ .err 403 m)) := by
  constructor
  · intro hrole hnot
    have howns : verifyTeacherOwns s cid u.id = false := by
      unfold verifyTeacherOwns
      cases hfind : s.courses.find? (fun c => c.id == cid) with
      | none => rfl
      | some c =>
        have hc : c ∈ s.courses := List.mem_of_find?_eq_some hfind
        have hcid := List.find?_some hfind
        simp only [beq_iff_eq] at hcid
        simp [hnot c hc hcid]
    refine ⟨?_, ?_⟩
    · unfold updateCourse requireRoleCheck
      simp +decide [hrole, howns]
    · unfold deleteCourse requireRoleCheck
      simp +decide [hrole, howns]
  · intro hrole
    refine ⟨?_, ?_⟩
    · intro m
      unfold updateCourse requireRoleCheck
      simp +decide only [hrole]
      cases hfind : s.courses.find? (fun c => c.id == cid) <;> simp [hfind]
    · intro m
      unfold deleteCourse requireRoleCheck
      simp +decide [hrole]

/-- C5 witness: teacher 2 does not own course 1 and is rejected with an
unchanged store; an admin session is never rejected with the ownership
403 on the same course. -/
theorem course_mutation_ownership_witness :
    (updateCourse storeWithSub { id := 2, role := "teacher", isApproved := true } 1
        { name := some "New", description := none, subject := none, is_active := none } 9 =
      (.err 403 "Not your course", storeWithSub) ∧
     deleteCourse storeWithSub { id := 2, role := "teacher", isApproved := true } 1 9 =
      (.err 403 "Not your course", storeWithSub)) ∧
    ((updateCourse storeWithSub adminSession 1
        { name := some "New", description := none, subject := none, is_active := none } 9).1 ≠
      .err 403 "Not your course" ∧
     (deleteCourse storeWithSub adminSession 1 9).1 ≠ .err 403 "Not your course") :=
  ⟨(course_mutation_ownership storeWithSub { id := 2, role := "teacher", isApproved := true }
      1 { name := some "New", description := none, subject := none, is_active := none } 9).1
      rfl (by decide),
   ⟨(course_mutation_ownership storeWithSub adminSession 1
      { name := some "New", description := none, subject := none, is_active := none } 9).2
      rfl |>.1 "Not your course",
    (course_mutation_ownership storeWithSub adminSession 1
      { name := some "New", description := none, subject := none, is_active := none } 9).2
      rfl |>.2 "Not your course"⟩⟩

/-- C10: in an admin user edit, a body field that is absent or falsy
(the empty string) leaves the stored field unchanged, a truthy field is
written exactly, and the other columns are untouched, so a name or
email cannot be blanked through this route. -/
theorem admin_edit_ignores_falsy (s : Store) (u : SessionUser) (tid : Nat)
    (b : AdminEditBody) (x x2 : User) (s2 : Store)
    (hx : s.users.find? (fun y => y.id == tid) = some x)
    (h : adminEditUser s u tid b = (.ok x2, s2)) :
    ((b.first_name = none ∨ b.first_name = some "") → x2.first_name = x.first_name) ∧
    (∀ v, v ≠ "" → b.first_name = some v → x2.first_name = v) ∧
    ((b.last_name = none ∨ b.last_name = some "") → x2.last_name = x.last_name) ∧
    (∀ v, v ≠ "" → b.last_name = some v → x2.last_name = v) ∧
    ((b.email = none ∨ b.email = some "") → x2.email = x.email) ∧
    (∀ v, v ≠ "" → b.email = some v → x2.email = v) ∧
    ((b.role = none ∨ b.role = some "") → x2.role = x.role) ∧
    (∀ v, v ≠ "" → b.role = some v → x2.role = v) ∧
    x2.id = x.id ∧ x2.password = x.password ∧ x2.is_approved = x.is_approved ∧
    x2 ∈ s2.users := by
  unfold adminEditUser at h
  split at h
  · simp at h
  · split at h
    · simp at h
    · rw [hx] at h
      simp only [Prod.mk.injEq, RouteResult.ok.injEq] at h
      obtain ⟨hx2, hs2⟩ := h
      subst hx2
      subst hs2
      have hmem : x ∈ s.users := List.mem_of_find?_eq_some hx
      have hid := List.find?_some hx
      refine ⟨?_, ?_, ?_, ?_, ?_, ?_, ?_, ?_, rfl, rfl, rfl, ?_⟩
      · rintro (hc | hc) <;> simp [applyUserEdit, truthy, hc]
      · intro v hv hc
        simp [applyUserEdit, truthy, hc, hv]
      · rintro (hc | hc) <;> simp [applyUserEdit, truthy, hc]
      · intro v hv hc
        simp [applyUserEdit, truthy, hc, hv]
      · rintro (hc | hc) <;> simp [applyUserEdit, truthy, hc]
      · intro v hv hc
        simp [applyUserEdit, truthy, hc, hv]
      · rintro (hc | hc) <;> simp [applyUserEdit, truthy, hc]
      · intro v hv hc
        simp [applyUserEdit, truthy, hc, hv]
      · exact List.mem_map.2 ⟨x, hmem, by simp [hid]⟩

/-- C6: in a successful assignment update, a body field that is absent
keeps its stored value, a present field is written exactly, an explicit
null due date is written as null, the id and course are untouched, and
every other assignment row is untouched. -/
theorem assignment_update_frame (s : Store) (u : SessionUser) (aid : Nat)
    (b : UpdateAssignmentBody) (a a2 : Assignment) (s2 : Store)
    (hfind : s.assignments.find? (fun x => x.id == aid) = some a)
    (h : updateAssignment s u aid b = (.ok a2, s2)) :
    (b.title = none → a2.title = a.title) ∧
    (∀ v, b.title = some v → a2.title = v) ∧
    (b.description = none → a2.description = a.description) ∧
    (∀ v, b.description = some v → a2.description = v) ∧
    (b.due_date = none → a2.due_date = a.due_date) ∧
    (∀ v, b.due_date = some v → a2.due_date = v) ∧
    (b.due_date = some none → a2.due_date = none) ∧
    (b.max_points = none → a2.max_points = a.max_points) ∧
    (∀ v, b.max_points = some v → a2.max_points = v) ∧
    a2.id = a.id ∧ a2.course_id = a.course_id ∧
    a2 ∈ s2.assignments ∧
    (∀ x ∈ s.assignments, x.id ≠ aid → x ∈ s2.assignments) := by
  unfold updateAssignment at h
  split at h
  · simp at h
  · rw [hfind] at h
    split at h
    · simp at h
    · rename_i a3 heq
      injection heq with heq
      subst heq
      split at h
      · simp at h
      simp only [Prod.mk.injEq, RouteResult.ok.injEq] at h
      obtain ⟨ha2, hs2⟩ := h
      subst ha2
      subst hs2
      have hmem : a ∈ s.assignments := List.mem_of_find?_eq_some hfind
      have hid := List.find?_some hfind
      refine ⟨?_, ?_, ?_, ?_, ?_, ?_, ?_, ?_, ?_, rfl, rfl, ?_, ?_⟩
      · intro hc; simp [applyAssignmentUpdates, hc]
      · intro v hc; simp [applyAssignmentUpdates, hc]
      · intro hc; simp [applyAssignmentUpdates, hc]
      · intro v hc; simp [applyAssignmentUpdates, hc]
      · intro hc; simp [applyAssignmentUpdates, hc]
      · intro v hc; simp [applyAssignmentUpdates, hc]
      · intro hc; simp [applyAssignmentUpdates, hc]
      · intro hc; simp [applyAssignmentUpdates, hc]
      · intro v hc; simp [applyAssignmentUpdates, hc]
      · exact List.mem_map.2 ⟨a, hmem, by simp [hid]⟩
      · intro x hxmem hxne
        refine List.mem_map.2 ⟨x, hxmem, ?_⟩
        simp [hxne]

/-- C6 witness: a concrete update with an absent description, a new
title and an explicit null due date behaves field by field as stated. -/
theorem assignment_update_frame_witness :
    (updBody1.title = none → asg1b.title = asg1.title) ∧
    (∀ v, updBody1.title = some v → asg1b.title = v) ∧
    (updBody1.description = none → asg1b.description = asg1.description) ∧
    (∀ v, updBody1.description = some v → asg1b.description = v) ∧
    (updBody1.due_date = none → asg1b.due_date = asg1.due_date) ∧
    (∀ v, updBody1.due_date = some v → asg1b.due_date = v) ∧
    (updBody1.due_date = some none → asg1b.due_date = none) ∧
    (updBody1.max_points = none → asg1b.max_points = asg1.max_points) ∧
    (∀ v, updBody1.max_points = some v → asg1b.max_points = v) ∧
    asg1b.id = asg1.id ∧ asg1b.course_id = asg1.course_id ∧
    asg1b ∈ storeAsgUpd.assignments ∧
    (∀ x ∈ storeWithSub.assignments, x.id ≠ 1 → x ∈ storeAsgUpd.assignments) :=
  assignment_update_frame storeWithSub adminSession 1 updBody1 asg1 asg1b storeAsgUpd
    (by decide) (by decide)

/-- C1 counterexample: teacher 1 has is_approved false yet owns course 1;
the course update route accepts the mutation with a 200 payload and
changes the store, so approval does not gate every course or assignment
mutation. -/
theorem approval_gate_counterexample :
    (updateCourse storeUnapproved teacherSession 1
        { name := some "Renamed", description := none, subject := none, is_active := none } 5).1 =
      .ok { course1 with name := "Renamed", updated_at := 5 } ∧
    (updateCourse storeUnapproved teacherSession 1
        { name := some "Renamed", description := none, subject := none, is_active := none } 5).2 ≠
      storeUnapproved := by decide

/-- C1 amended: approval gates only creation: a course create or an
assignment create attempted by a teacher whose stored approval flag is
false (or whose record is missing) is rejected with 403 and the store is
unchanged, while update and delete are gated by role and ownership
only. -/
theorem approval_gates_creation (s : Store) (u : SessionUser) (bc : CreateCourseBody)
    (ba : CreateAssignmentBody) (now : Nat)
    (hrole : u.role = "teacher")
    (happ : ∀ x ∈ s.users, x.id = u.id → x.is_approved = false) :
    createCourse s u bc now = (.err 403 "Your account is pending admin approval", s) ∧
    createAssignment s u ba = (.err 403 "Your account is pending admin approval", s) := by
  have hap : requireApprovedCheck s u = some (403, "Your account is pending admin approval") := by
    unfold requireApprovedCheck
    rw [hrole]
    simp only [String.reduceBEq, Bool.or_self, Bool.false_eq_true, if_false]
    cases hfind : s.users.find? (fun x => x.id == u.id) with
    | none => rfl
    | some usr =>
      have husr : usr ∈ s.users := List.mem_of_find?_eq_some hfind
      have hid := List.find?_some hfind
      simp only [beq_iff_eq] at hid
      simp [happ usr husr hid]
  constructor
  · unfold createCourse requireRoleCheck
    simp +decide [hrole, hap]
  · unfold createAssignment requireRoleCheck
    simp +decide [hrole, hap]

/-- C1 amended witness: the unapproved teacher 1 is rejected on both
create routes with an unchanged store. -/
theorem approval_gates_creation_witness :
    createCourse storeUnapproved teacherSession
      { name := some "Geometry", description := none, subject := none } 7 =
      (.err 403 "Your account is pending admin approval", storeUnapproved) ∧
    createAssignment storeUnapproved teacherSession
      { course_id := some 1, title := some "HW2", description := none,
        due_date := none, max_points := none } =
      (.err 403 "Your account is pending admin approval", storeUnapproved) :=
  approval_gates_creation storeUnapproved teacherSession
    { name := some "Geometry", description := none, subject := none }
    { course_id := some 1, title := some "HW2", description := none,
      due_date := none, max_points := none } 7 rfl (by decide)

/-- C2 counterexample: in storeWithSub the submission of student 2 for
assignment 1 is valid, yet after student 2 unenrolls from course 1 the
unenroll route succeeds, the submission row survives, and it now
references a student who is not enrolled in the course of its
assignment. -/
theorem submission_invariant_counterexample :
    submissionStudentEnrolled storeWithSub sub1 ∧
    (unenroll storeWithSub studentSession 1).1 = .ok () ∧
    sub1 ∈ (unenroll storeWithSub studentSession 1).2.submissions ∧
    ¬ submissionStudentEnrolled (unenroll storeWithSub studentSession 1).2 sub1 := by
  decide

/-- C2 amended: the submit route does enforce the reference invariant at
creation time: any submission it returns with success is stored, belongs
to the calling student and the requested assignment, and references an
existing assignment in whose course the student is enrolled; the
invariant is only guaranteed at that moment, since unenroll does not
cascade. -/
theorem submit_preserves_validity (s : Store) (u : SessionUser) (aid : Nat)
    (c : Option String) (now : Nat) (sub : Submission) (s2 : Store)
    (h : submit s u aid c now = (.ok sub, s2)) :
    sub ∈ s2.submissions ∧ sub.student_id = u.id ∧ sub.assignment_id = aid ∧
    submissionStudentEnrolled s2 sub := by
  unfold submit at h
  split at h
  · simp at h
  · split at h
    · simp at h
    · split at h
      · simp at h
      · rename_i a heq
        split at h
        · simp at h
        · rename_i henr
          rw [Bool.not_eq_true] at henr
          rw [Bool.not_eq_false'] at henr
          have hamem : a ∈ s.assignments := List.mem_of_find?_eq_some heq
          have haid := List.find?_some heq
          simp only [beq_iff_eq] at haid
          obtain ⟨e, he⟩ := Option.isSome_iff_exists.1 henr
          have hemem : e ∈ s.enrollments := List.mem_of_find?_eq_some he
          have hepred := List.find?_some he
          simp only [Bool.and_eq_true, beq_iff_eq] at hepred
          split at h
          · rename_i ex hex
            have hexmem : ex ∈ s.submissions := List.mem_of_find?_eq_some hex
            have hexpred := List.find?_some hex
            simp only [Bool.and_eq_true, beq_iff_eq] at hexpred
            simp only [Prod.mk.injEq, RouteResult.ok.injEq] at h
            obtain ⟨hsub, hs2⟩ := h
            subst hsub
            subst hs2
            refine ⟨?_, hexpred.2, hexpred.1, ?_⟩
            · exact List.mem_map.2 ⟨ex, hexmem, by simp⟩
            · exact ⟨a, hamem, by rw [haid, hexpred.1],
                e, hemem, hepred.1, by rw [hepred.2, hexpred.2]⟩
          · simp only [Prod.mk.injEq, RouteResult.ok.injEq] at h
            obtain ⟨hsub, hs2⟩ := h
            subst hsub
            subst hs2
            refine ⟨?_, rfl, rfl, ?_⟩
            · exact List.mem_append_right _ (List.mem_singleton.2 rfl)
            · exact ⟨a, hamem, haid, e, hemem, hepred.1, hepred.2⟩

/-- C2 amended witness: a concrete successful resubmission is stored and
references an existing assignment and an enrolled student. -/
theorem submit_preserves_validity_witness :
    ({ sub1 with content := "new", submitted_at := 7 } : Submission) ∈
      ({ storeWithSub with
          submissions := [{ sub1 with content := "new", submitted_at := 7 }] } : Store).submissions ∧
    ({ sub1 with content := "new", submitted_at := 7 } : Submission).student_id =
      studentSession.id ∧
    ({ sub1 with content := "new", submitted_at := 7 } : Submission).assignment_id = 1 ∧
    submissionStudentEnrolled
      ({ storeWithSub with
          submissions := [{ sub1 with content := "new", submitted_at := 7 }] } : Store)
      ({ sub1 with content := "new", submitted_at := 7 } : Submission) :=
  submit_preserves_validity storeWithSub studentSession 1 (some "new") 7
    { sub1 with content := "new", submitted_at := 7 }
    { storeWithSub with submissions := [{ sub1 with content := "new", submitted_at := 7 }] }
    (by decide)

/-- C3: starting from a state with no submission for the pair, two
sequential submits by the same student for the same assignment leave
exactly one submission row for the pair; that row carries the content
and submitted-at of the second call and the id created by the first
call, and the second call adds no row and consumes no fresh id. -/
theorem resubmission_upserts (s : Store) (u : SessionUser) (aid : Nat)
    (c1v c2v : String) (t1 t2 : Nat) (a : Assignment)
    (hrole : u.role = "student") (hc1 : c1v ≠ "") (hc2 : c2v ≠ "")
    (ha : s.assignments.find? (fun x => x.id == aid) = some a)
    (henr : verifyEnrolled s a.course_id u.id = true)
    (hnone : ∀ x ∈ s.submissions, ¬(x.assignment_id = aid ∧ x.student_id = u.id)) :
    ((submit (submit s u aid (some c1v) t1).2 u aid (some c2v) t2).2.submissions.countP
        (fun x => x.assignment_id == aid && x.student_id == u.id)) = 1 ∧
    (∃ sub ∈ (submit (submit s u aid (some c1v) t1).2 u aid (some c2v) t2).2.submissions,
        sub.assignment_id = aid ∧ sub.student_id = u.id ∧ sub.content = c2v ∧
        sub.submitted_at = t2 ∧ sub.id = s.nextId) ∧
    (submit (submit s u aid (some c1v) t1).2 u aid (some c2v) t2).2.submissions.length =
      (submit s u aid (some c1v) t1).2.submissions.length ∧
    (submit (submit s u aid (some c1v) t1).2 u aid (some c2v) t2).2.nextId =
      (submit s u aid (some c1v) t1).2.nextId := by
  have hrc : requireRoleCheck ["student"] u = none := by
    unfold requireRoleCheck
    simp [hrole]
  have hstrf1 : strFalsy (some c1v) = false := by simp [strFalsy, hc1]
  have hstrf2 : strFalsy (some c2v) = false := by simp [strFalsy, hc2]
  have hfind1 : s.submissions.find?
      (fun x => x.assignment_id == aid && x.student_id == u.id) = none := by
    rw [List.find?_eq_none]
    intro x hx
    simp only [Bool.and_eq_true, beq_iff_eq, not_and]
    intro h1 h2
    exact hnone x hx ⟨h1, h2⟩
  have hstep1 : submit s u aid (some c1v) t1 =
      (.ok { id := s.nextId, assignment_id := aid, student_id := u.id, content := c1v,
             submitted_at := t1, grade := none, feedback := "", graded_at := none },
       { s with
          submissions := s.submissions ++
            [{ id := s.nextId, assignment_id := aid, student_id := u.id, content := c1v,
               submitted_at := t1, grade := none, feedback := "", graded_at := none }],
          nextId := s.nextId + 1 }) := by
    unfold submit
    simp [hrc, hstrf1, ha, henr, hfind1]
  have hfind2 : (s.submissions ++
      [({ id := s.nextId, assignment_id := aid, student_id := u.id, content := c1v,
          submitted_at := t1, grade := none, feedback := "", graded_at := none } : Submission)]).find?
      (fun x => x.assignment_id == aid && x.student_id == u.id) =
      some ({ id := s.nextId, assignment_id := aid, student_id := u.id, content := c1v,
              submitted_at := t1, grade := none, feedback := "", graded_at := none } : Submission) := by
    rw [List.find?_eq_some]
    refine ⟨by simp, s.submissions, [], rfl, ?_⟩
    intro x hx
    simp only [Bool.not_eq_true', Bool.and_eq_false_iff, beq_eq_false_iff_ne, ne_eq]
    by_cases h1 : x.assignment_id = aid
    · exact Or.inr (fun h2 => hnone x hx ⟨h1, h2⟩)
    · exact Or.inl h1
  have hstep2 : submit
      ({ s with
          submissions := s.submissions ++
            [({ id := s.nextId, assignment_id := aid, student_id := u.id, content := c1v,
                submitted_at := t1, grade := none, feedback := "", graded_at := none } : Submission)],
          nextId := s.nextId + 1 } : Store) u aid (some c2v) t2 =
      (.ok { id := s.nextId, assignment_id := aid, student_id := u.id, content := c2v,
             submitted_at := t2, grade := none, feedback := "", graded_at := none },
       { s with
          submissions := (s.submissions ++
            [({ id := s.nextId, assignment_id := aid, student_id := u.id, content := c1v,
                submitted_at := t1, grade := none, feedback := "", graded_at := none } : Submission)]).map
            (fun x => if x.id == s.nextId then
              { x with content := c2v, submitted_at := t2 } else x),
          nextId := s.nextId + 1 }) := by
    unfold submit
    simp [hrc, hstrf2, ha, henr, hfind2]
    exact henr
  simp only [hstep1]
  simp only [hstep2, List.map_append]
  refine ⟨?_, ?_, ?_, trivial⟩
  · rw [List.countP_append]
    have hz : ((s.submissions.map (fun x => if x.id == s.nextId then
        { x with content := c2v, submitted_at := t2 } else x)).countP
        (fun x => x.assignment_id == aid && x.student_id == u.id)) = 0 := by
      rw [List.countP_eq_zero]
      intro z hz
      obtain ⟨x, hx, hfx⟩ := List.mem_map.1 hz
      subst hfx
      by_cases hxx : (x.id == s.nextId) = true
      · simp only [hxx, if_true, Bool.and_eq_true, beq_iff_eq, not_and]
        intro h1 h2
        exact hnone x hx ⟨h1, h2⟩
      · simp only [hxx, if_false, Bool.and_eq_true, beq_iff_eq, not_and]
        intro h1 h2
        exact hnone x hx ⟨h1, h2⟩
    rw [hz]
    simp
  · refine ⟨({ id := s.nextId, assignment_id := aid, student_id := u.id, content := c2v,
               submitted_at := t2, grade := none, feedback := "", graded_at := none } : Submission),
      ?_, rfl, rfl, rfl, rfl, rfl⟩
    refine List.mem_append_right _ ?_
    simp
  · simp

/-- C3 witness: a concrete double submit in a store with no prior
submission for the pair. -/
theorem resubmission_upserts_witness :
    ((submit (submit storeNoSub studentSession 1 (some "v1") 6).2 studentSession 1
        (some "v2") 7).2.submissions.countP
        (fun x => x.assignment_id == 1 && x.student_id == studentSession.id)) = 1 ∧
    (∃ sub ∈ (submit (submit storeNoSub studentSession 1 (some "v1") 6).2 studentSession 1
        (some "v2") 7).2.submissions,
        sub.assignment_id = 1 ∧ sub.student_id = studentSession.id ∧ sub.content = "v2" ∧
        sub.submitted_at = 7 ∧ sub.id = storeNoSub.nextId) ∧
    (submit (submit storeNoSub studentSession 1 (some "v1") 6).2 studentSession 1
        (some "v2") 7).2.submissions.length =
      (submit storeNoSub studentSession 1 (some "v1") 6).2.submissions.length ∧
    (submit (submit storeNoSub studentSession 1 (some "v1") 6).2 studentSession 1
        (some "v2") 7).2.nextId = (submit storeNoSub studentSession 1 (some "v1") 6).2.nextId :=
  resubmission_upserts storeNoSub studentSession 1 "v1" "v2" 6 7 asg1 rfl (by decide)
    (by decide) (by decide) (by decide) (by decide)

/-- Repeating the read-marking of a conversation changes nothing. -/
theorem markConversationRead_idem (msgs : List Message) (uid pid : Nat) :
    markConversationRead (markConversationRead msgs uid pid) uid pid =
      markConversationRead msgs uid pid := by
  unfold markConversationRead
  rw [List.map_map]
  apply List.map_congr_left
  intro m hm
  simp only [Function.comp_apply]
  by_cases hc : (m.sender_id == pid && m.receiver_id == uid && m.is_read == false) = true
  · rw [if_pos hc, if_neg (by simp)]
  · simp only [if_neg hc]

/-- After the read-marking, every message from the partner to the caller
is read. -/
theorem markConversationRead_reads (msgs : List Message) (uid pid : Nat) :
    ∀ m ∈ markConversationRead msgs uid pid,
      m.sender_id = pid → m.receiver_id = uid → m.is_read = true := by
  intro m hm h1 h2
  unfold markConversationRead at hm
  obtain ⟨m0, hm0, hfm⟩ := List.mem_map.1 hm
  by_cases hc : (m0.sender_id == pid && m0.receiver_id == uid && m0.is_read == false) = true
  · rw [if_pos hc] at hfm
    rw [← hfm]
  · rw [if_neg hc] at hfm
    subst hfm
    simp only [h1, h2, Bool.and_eq_true, beq_iff_eq, beq_self_eq_true, true_and,
      not_and, Bool.not_eq_true] at hc
    simp only [Bool.not_eq_false] at hc
    exact hc

/-- C8: after fetching the conversation with a partner, every message
from that partner to the caller is read, so the unread contribution of
that partner is zero; fetching again leaves the store unchanged and
still succeeds. -/
theorem conversation_read_receipt (s : Store) (u : SessionUser) (pid : Nat) :
    (∀ m ∈ (conversationWith s u pid).2.messages,
        m.sender_id = pid → m.receiver_id = u.id → m.is_read = true) ∧
    ((conversationWith s u pid).2.messages.filter (fun m =>
        m.sender_id == pid && m.receiver_id == u.id && m.is_read == false)).length = 0 ∧
    (conversationWith (conversationWith s u pid).2 u pid).2 = (conversationWith s u pid).2 ∧
    (∃ msgs, (conversationWith (conversationWith s u pid).2 u pid).1 = .ok msgs) := by
  refine ⟨markConversationRead_reads s.messages u.id pid, ?_, ?_, ⟨_, rfl⟩⟩
  · rw [List.length_eq_zero, List.filter_eq_nil_iff]
    intro m hm
    simp only [Bool.and_eq_true, beq_iff_eq, not_and, Bool.not_eq_true]
    intro h1
    have := markConversationRead_reads s.messages u.id pid m hm h1.1 h1.2
    simp [this]
  · show ({ s with
            messages := markConversationRead
              (markConversationRead s.messages u.id pid) u.id pid } : Store) =
      ({ s with messages := markConversationRead s.messages u.id pid } : Store)
    rw [markConversationRead_idem]

/-- Containment in a list of ids is membership. -/
theorem list_contains_iff_mem (l : List Nat) (x : Nat) : l.contains x = true ↔ x ∈ l :=
  List.elem_iff

/-- Projecting the submission out of the enrichment map gives back the
original submissions. -/
theorem map_submission_enrich (g : Submission → Option (String × String))
    (h : Submission → Option AssignmentBrief) (k : Submission → String) (l : List Submission) :
    List.map PendingItem.submission (List.map (fun sub =>
      ({ submission := sub, student := g sub, assignment := h sub,
         course_name := k sub } : PendingItem)) l) = l := by
  rw [List.map_map]
  have hp : ∀ x ∈ l, (PendingItem.submission ∘ (fun sub =>
      ({ submission := sub, student := g sub, assignment := h sub,
         course_name := k sub } : PendingItem))) x = id x :=
    fun x _ => rfl
  rw [List.map_congr_left hp, List.map_id]

/-- C9: whatever list pending-grading returns to a teacher or admin
caller is, up to permutation of the underlying rows, exactly the
ungraded submissions whose assignment belongs to a course owned by the
caller, sorted ascending by submitted-at, and each entry is enriched
with a matching student name, its slim assignment record, and the name
of the owning course. -/
theorem pending_grading_correct (s : Store) (u : SessionUser) (items : List PendingItem)
    (hrole : u.role = "teacher" ∨ u.role = "master_teacher")
    (hitems : pendingGrading s u = .ok items) :
    (items.map PendingItem.submission).Perm
      (s.submissions.filter (fun sub => decide (ownsPendingSub s u.id sub))) ∧
    (items.map (fun it => it.submission.submitted_at)).Pairwise (· ≤ ·) ∧
    ∀ it ∈ items,
      (∀ st, it.student = some st →
        ∃ x ∈ s.users, x.id = it.submission.student_id ∧ st = (x.first_name, x.last_name)) ∧
      ∃ a ∈ s.assignments, a.id = it.submission.assignment_id ∧
        it.assignment = some { id := a.id, title := a.title, course_id := a.course_id } ∧
        ∃ c ∈ s.courses, c.id = a.course_id ∧ c.teacher_id = u.id ∧ it.course_name = c.name := by
  have hrc : requireRoleCheck ["teacher", "master_teacher"] u = none := by
    unfold requireRoleCheck
    rcases hrole with h | h <;> simp [h]
  have hsub1 : ∀ (cid : Nat),
      ((List.filter (fun c => c.teacher_id == u.id) s.courses).map (fun c => c.id)).contains cid = true ↔
      ∃ c ∈ s.courses, c.id = cid ∧ c.teacher_id = u.id := by
    intro cid
    rw [list_contains_iff_mem]
    simp only [List.mem_map, List.mem_filter, beq_iff_eq]
    constructor
    · rintro ⟨c, ⟨hc, ht⟩, hid⟩
      exact ⟨c, hc, hid, ht⟩
    · rintro ⟨c, hc, hid, ht⟩
      exact ⟨c, ⟨hc, ht⟩, hid⟩
  unfold pendingGrading at hitems
  rw [hrc] at hitems
  split at hitems
  · exact absurd hitems (by simp)
  · simp only [] at hitems
    split at hitems
    · rename_i hce
      simp only [RouteResult.ok.injEq] at hitems
      subst hitems
      have hnoc : ∀ c ∈ s.courses, ¬c.teacher_id = u.id := by
        have h0 := List.isEmpty_iff.1 hce
        rw [List.filter_eq_nil_iff] at h0
        intro c hc hteq
        exact h0 c hc (by simp [hteq])
      have hfilter : s.submissions.filter
          (fun sub => decide (ownsPendingSub s u.id sub)) = [] := by
        rw [List.filter_eq_nil_iff]
        intro sub hsub
        simp only [decide_eq_true_eq]
        rintro ⟨hg, a, ha, haid, c, hc, hcid, hct⟩
        exact hnoc c hc hct
      refine ⟨by simp [hfilter], by simp, by simp⟩
    · split at hitems
      · rename_i hce hbe
        simp only [RouteResult.ok.injEq] at hitems
        subst hitems
        have hnoa : ∀ a ∈ s.assignments,
            ¬(((List.filter (fun c => c.teacher_id == u.id) s.courses).map
              (fun c => c.id)).contains a.course_id = true) := by
          have h0 := List.isEmpty_iff.1 hbe
          rw [List.map_eq_nil_iff, List.filter_eq_nil_iff] at h0
          intro a ha hcont
          exact h0 a ha hcont
        have hfilter : s.submissions.filter
            (fun sub => decide (ownsPendingSub s u.id sub)) = [] := by
          rw [List.filter_eq_nil_iff]
          intro sub hsub
          simp only [decide_eq_true_eq]
          rintro ⟨hg, a, ha, haid, c, hc, hcid, hct⟩
          exact hnoa a ha ((hsub1 a.course_id).2 ⟨c, hc, hcid, hct⟩)
        refine ⟨by simp [hfilter], by simp, by simp⟩
      · rename_i hce hbe
        simp only [RouteResult.ok.injEq] at hitems
        subst hitems
        have hsub2 : ∀ (av : Nat),
            (((List.filter (fun a =>
                ((List.filter (fun c => c.teacher_id == u.id) s.courses).map
                  (fun c => c.id)).contains a.course_id) s.assignments).map
              (fun a => ({ id := a.id, title := a.title, course_id := a.course_id } :
                AssignmentBrief))).map (fun a => a.id)).contains av = true ↔
            ∃ a ∈ s.assignments, a.id = av ∧
              ∃ c ∈ s.courses, c.id = a.course_id ∧ c.teacher_id = u.id := by
          intro av
          rw [list_contains_iff_mem]
          simp only [List.mem_map, List.mem_filter]
          constructor
          · rintro ⟨b, ⟨a, ⟨ha, hcont⟩, hab⟩, hbid⟩
            subst hab
            exact ⟨a, ha, hbid, (hsub1 a.course_id).1 hcont⟩
          · rintro ⟨a, ha, haid, hc⟩
            exact ⟨{ id := a.id, title := a.title, course_id := a.course_id },
              ⟨a, ⟨ha, (hsub1 a.course_id).2 hc⟩, rfl⟩, haid⟩
        have hpred : ∀ x ∈ s.submissions,
            ((((List.filter (fun a =>
                ((List.filter (fun c => c.teacher_id == u.id) s.courses).map
                  (fun c => c.id)).contains a.course_id) s.assignments).map
              (fun a => ({ id := a.id, title := a.title, course_id := a.course_id } :
                AssignmentBrief))).map (fun a => a.id)).contains x.assignment_id &&
              x.grade == none) = decide (ownsPendingSub s u.id x) := by
          intro x hx
          rw [Bool.eq_iff_iff]
          simp only [Bool.and_eq_true, decide_eq_true_eq]
          unfold ownsPendingSub
          constructor
          · rintro ⟨hcont, hg⟩
            obtain ⟨a, ha, haid, c, hc, hcid, hct⟩ := (hsub2 x.assignment_id).1 hcont
            exact ⟨by simpa using hg, a, ha, haid, c, hc, hcid, hct⟩
          · rintro ⟨hg, a, ha, haid, c, hc, hcid, hct⟩
            exact ⟨(hsub2 x.assignment_id).2 ⟨a, ha, haid, c, hc, hcid, hct⟩,
              by simp [hg]⟩
        refine ⟨?_, ?_, ?_⟩
        · rw [map_submission_enrich]
          have hfeq := List.filter_congr hpred
          rw [← hfeq]
          exact List.perm_insertionSort _ _
        · rw [List.map_map]
          apply List.pairwise_map.2
          haveI hto : IsTotal Submission (fun a b => a.submitted_at ≤ b.submitted_at) :=
            ⟨fun a b => Nat.le_total _ _⟩
          haveI htr : IsTrans Submission (fun a b => a.submitted_at ≤ b.submitted_at) :=
            ⟨fun _ _ _ => Nat.le_trans⟩
          refine List.Pairwise.imp ?_ (List.sorted_insertionSort
            (fun a b : Submission => a.submitted_at ≤ b.submitted_at) _)
          intro a b hab
          exact hab
        · intro it hit
          obtain ⟨sub, hsubmem, hF⟩ := List.mem_map.1 hit
          subst hF
          have hsubf : sub ∈ List.filter (fun x =>
              ((((List.filter (fun a =>
                  ((List.filter (fun c => c.teacher_id == u.id) s.courses).map
                    (fun c => c.id)).contains a.course_id) s.assignments).map
                (fun a => ({ id := a.id, title := a.title, course_id := a.course_id } :
                  AssignmentBrief))).map (fun a => a.id)).contains x.assignment_id &&
                x.grade == none)) s.submissions :=
            (List.perm_insertionSort _ _).mem_iff.1 hsubmem
          have hcode := (List.mem_filter.1 hsubf).2
          rw [Bool.and_eq_true] at hcode
          obtain ⟨hcont, hg⟩ := hcode
          obtain ⟨a0, ha0, ha0id, c0, hc0, hc0id, hc0t⟩ := (hsub2 sub.assignment_id).1 hcont
          constructor
          · intro st hst
            rw [Option.map_eq_some'] at hst
            obtain ⟨x, hfindx, hnamex⟩ := hst
            have hxid := List.find?_some hfindx
            simp only [beq_iff_eq] at hxid
            exact ⟨x, List.mem_of_find?_eq_some hfindx, hxid, hnamex.symm⟩
          · have hexb : ∃ b ∈ ((List.filter (fun a =>
                ((List.filter (fun c => c.teacher_id == u.id) s.courses).map
                  (fun c => c.id)).contains a.course_id) s.assignments).map
              (fun a => ({ id := a.id, title := a.title, course_id := a.course_id } :
                AssignmentBrief))).reverse, (b.id == sub.assignment_id) = true := by
              refine ⟨{ id := a0.id, title := a0.title, course_id := a0.course_id },
                List.mem_reverse.2 (List.mem_map.2 ⟨a0, ?_, rfl⟩), by simp [ha0id]⟩
              exact List.mem_filter.2 ⟨ha0, (hsub1 a0.course_id).2 ⟨c0, hc0, hc0id, hc0t⟩⟩
            obtain ⟨ab, hab⟩ := Option.isSome_iff_exists.1 (List.find?_isSome.2 hexb)
            have habmem : ab ∈ ((List.filter (fun a =>
                ((List.filter (fun c => c.teacher_id == u.id) s.courses).map
                  (fun c => c.id)).contains a.course_id) s.assignments).map
              (fun a => ({ id := a.id, title := a.title, course_id := a.course_id } :
                AssignmentBrief))) :=
              List.mem_reverse.1 (List.mem_of_find?_eq_some hab)
            have habid := List.find?_some hab
            simp only [beq_iff_eq] at habid
            obtain ⟨a1, ha1f, ha1b⟩ := List.mem_map.1 habmem
            have ha1mem := (List.mem_filter.1 ha1f).1
            have ha1cont := (List.mem_filter.1 ha1f).2
            obtain ⟨c1, hc1mem, hc1id, hc1t⟩ := (hsub1 a1.course_id).1 ha1cont
            have hexc : ∃ c ∈ (List.filter (fun c => c.teacher_id == u.id)
                s.courses).reverse, (c.id == ab.course_id) = true := by
              refine ⟨c1, List.mem_reverse.2 (List.mem_filter.2 ⟨hc1mem, by simp [hc1t]⟩), ?_⟩
              rw [← ha1b]
              simp [hc1id]
            obtain ⟨c2, hc2⟩ := Option.isSome_iff_exists.1 (List.find?_isSome.2 hexc)
            have hc2mem := List.mem_reverse.1 (List.mem_of_find?_eq_some hc2)
            have hc2f := List.mem_filter.1 hc2mem
            have hc2id := List.find?_some hc2
            simp only [beq_iff_eq] at hc2id
            have hc2t : c2.teacher_id = u.id := by
              have := hc2f.2
              simpa using this
            refine ⟨a1, ha1mem, ?_, ?_, c2, hc2f.1, ?_, hc2t, ?_⟩
            · rw [← habid, ← ha1b]
            · show jsLookupBrief _ sub.assignment_id = _
              unfold jsLookupBrief
              rw [hab, ha1b]
            · rw [hc2id, ← ha1b]
            · show (match jsLookupBrief _ sub.assignment_id with
                | some a => (jsLookupCourseName _ a.course_id).getD ""
                | none => "") = c2.name
              unfold jsLookupBrief jsLookupCourseName
              rw [hab]
              simp only []
              rw [hc2]
              rfl

/-- C9 witness: the concrete pending-grading run for teacher 1 in
storeWithSub, whose single entry satisfies the characterization. -/
theorem pending_grading_correct_witness :
    (([({ submission := sub1, student := some ("Bo", "Kim"),
          assignment := some { id := 1, title := "HW1", course_id := 1 },
          course_name := "Algebra" } : PendingItem)]).map PendingItem.submission).Perm
      (storeWithSub.submissions.filter
        (fun sub => decide (ownsPendingSub storeWithSub teacherSession.id sub))) ∧
    (([({ submission := sub1, student := some ("Bo", "Kim"),
          assignment := some { id := 1, title := "HW1", course_id := 1 },
          course_name := "Algebra" } : PendingItem)]).map
        (fun it => it.submission.submitted_at)).Pairwise (· ≤ ·) ∧
    ∀ it ∈ [({ submission := sub1, student := some ("Bo", "Kim"),
               assignment := some { id := 1, title := "HW1", course_id := 1 },
               course_name := "Algebra" } : PendingItem)],
      (∀ st, it.student = some st →
        ∃ x ∈ storeWithSub.users, x.id = it.submission.student_id ∧
          st = (x.first_name, x.last_name)) ∧
      ∃ a ∈ storeWithSub.assignments, a.id = it.submission.assignment_id ∧
        it.assignment = some { id := a.id, title := a.title, course_id := a.course_id } ∧
        ∃ c ∈ storeWithSub.courses, c.id = a.course_id ∧ c.teacher_id = teacherSession.id ∧
          it.course_name = c.name :=
  pending_grading_correct storeWithSub teacherSession
    [({ submission := sub1, student := some ("Bo", "Kim"),
        assignment := some { id := 1, title := "HW1", course_id := 1 },
        course_name := "Algebra" } : PendingItem)]
    (Or.inl rfl) (by decide)

/-- C10 witness: a concrete admin edit supplying an empty first name and
a new email leaves the name unchanged and writes the email. -/
theorem admin_edit_ignores_falsy_witness :
    ((({ first_name := some "", last_name := none, email := some "new@x",
         role := none } : AdminEditBody).first_name = none ∨
      ({ first_name := some "", last_name := none, email := some "new@x",
         role := none } : AdminEditBody).first_name = some "") →
      ({ t1 with email := "new@x" } : User).first_name = t1.first_name) ∧
    (∀ v, v ≠ "" →
      ({ first_name := some "", last_name := none, email := some "new@x",
         role := none } : AdminEditBody).first_name = some v →
      ({ t1 with email := "new@x" } : User).first_name = v) ∧
    ((({ first_name := some "", last_name := none, email := some "new@x",
         role := none } : AdminEditBody).last_name = none ∨
      ({ first_name := some "", last_name := none, email := some "new@x",
         role := none } : AdminEditBody).last_name = some "") →
      ({ t1 with email := "new@x" } : User).last_name = t1.last_name) ∧
    (∀ v, v ≠ "" →
      ({ first_name := some "", last_name := none, email := some "new@x",
         role := none } : AdminEditBody).last_name = some v →
      ({ t1 with email := "new@x" } : User).last_name = v) ∧
    ((({ first_name := some "", last_name := none, email := some "new@x",
         role := none } : AdminEditBody).email = none ∨
      ({ first_name := some "", last_name := none, email := some "new@x",
         role := none } : AdminEditBody).email = some "") →
      ({ t1 with email := "new@x" } : User).email = t1.email) ∧
    (∀ v, v ≠ "" →
      ({ first_name := some "", last_name := none, email := some "new@x",
         role := none } : AdminEditBody).email = some v →
      ({ t1 with email := "new@x" } : User).email = v) ∧
    ((({ first_name := some "", last_name := none, email := some "new@x",
         role := none } : AdminEditBody).role = none ∨
      ({ first_name := some "", last_name := none, email := some "new@x",
         role := none } : AdminEditBody).role = some "") →
      ({ t1 with email := "new@x" } : User).role = t1.role) ∧
    (∀ v, v ≠ "" →
      ({ first_name := some "", last_name := none, email := some "new@x",
         role := none } : AdminEditBody).role = some v →
      ({ t1 with email := "new@x" } : User).role = v) ∧
    ({ t1 with email := "new@x" } : User).id = t1.id ∧
    ({ t1 with email := "new@x" } : User).password = t1.password ∧
    ({ t1 with email := "new@x" } : User).is_approved = t1.is_approved ∧
    ({ t1 with email := "new@x" } : User) ∈
      ({ storeUnapproved with users := [{ t1 with email := "new@x" }] } : Store).users :=
  admin_edit_ignores_falsy storeUnapproved adminSession 1
    { first_name := some "", last_name := none, email := some "new@x", role := none }
    t1 { t1 with email := "new@x" }
    { storeUnapproved with users := [{ t1 with email := "new@x" }] }
    (by decide) (by decide)

/-- C8 witness: the concrete conversation fetch of student 2 with
partner 1 in storeWithSub. -/
theorem conversation_read_receipt_witness :
    (∀ m ∈ (conversationWith storeWithSub studentSession 1).2.messages,
        m.sender_id = 1 → m.receiver_id = studentSession.id → m.is_read = true) ∧
    ((conversationWith storeWithSub studentSession 1).2.messages.filter (fun m =>
        m.sender_id == 1 && m.receiver_id == studentSession.id &&
        m.is_read == false)).length = 0 ∧
    (conversationWith (conversationWith storeWithSub studentSession 1).2
        studentSession 1).2 = (conversationWith storeWithSub studentSession 1).2 ∧
    (∃ msgs, (conversationWith (conversationWith storeWithSub studentSession 1).2
        studentSession 1).1 = .ok msgs) :=
  conversation_read_receipt storeWithSub studentSession 1
